import Mathlib

/-!
Shallow embedding of the coordinate-calibration and response-normalization
pipeline of the eyemcp repository (src/calibration.py and src/vision.py),
together with theorems settling the specification claims.

Numeric conventions: Python floats are modelled as exact rationals (ℚ);
Python ints as ℤ.  Fallible code is modelled with `Except String`.
Module-level mutable state (`_scaling_x`, `_scaling_y`, `_is_calibrated`)
is modelled by explicit state passing of a `ScalingState` value.
-/

/-- The module-level scaling state of calibration.py:
`_scaling_x`, `_scaling_y`, `_is_calibrated` (lines 18-20). -/
structure ScalingState where
  scaling_x : ℚ
  scaling_y : ℚ
  calibrated : Bool
deriving DecidableEq, Repr

/-- Initial module state: `_scaling_x = 1.0`, `_scaling_y = 1.0`,
`_is_calibrated = False` (calibration.py lines 18-20). -/
def initState : ScalingState := ⟨1, 1, false⟩

/-- `get_scaling_factors()` (calibration.py lines 23-29). -/
def get_scaling_factors (s : ScalingState) : ℚ × ℚ := (s.scaling_x, s.scaling_y)

/-- `is_calibrated()` (calibration.py lines 32-38). -/
def is_calibrated (s : ScalingState) : Bool := s.calibrated

/-- Python `round()` on an exact rational: round half to even (banker's
rounding), which is what Python's builtin `round` does on floats. -/
def pythonRound (q : ℚ) : ℤ :=
  if q - q.floor < 1/2 then q.floor
  else if 1/2 < q - q.floor then q.floor + 1
  else if q.floor % 2 = 0 then q.floor else q.floor + 1

/-- `Rat.floor` agrees with the floor of the `FloorRing` instance. -/
theorem ratFloor_eq_floor (q : ℚ) : (q.floor : ℤ) = ⌊q⌋ := by
  rw [Rat.floor_def', ← Rat.floor_def]

/-- `apply_scaling(x, y)` (calibration.py lines 41-55):
`int(round(x * _scaling_x + 0.00001))` for each axis. -/
def apply_scaling (s : ScalingState) (x y : ℚ) : ℤ × ℤ :=
  (pythonRound (x * s.scaling_x + 1/100000),
   pythonRound (y * s.scaling_y + 1/100000))

/-- One calibration reference point (a row loaded from the calibration CSV):
`{"description": ..., "x": ..., "y": ...}` (calibration.py lines 89-93). -/
structure CalPoint where
  description : String
  x : ℤ
  y : ℤ
deriving DecidableEq, Repr

/-- The element info dict a lookup returns to `calculate_scaling_factors`:
the fields the calibration loop reads (`element_info["x"]`,
`element_info["y"]`, `element_info["confidence"]`, lines 179-181). -/
structure CalElement where
  x : ℤ
  y : ℤ
  confidence : ℚ
deriving DecidableEq, Repr

/-- Contribution of one point of the loop body (calibration.py lines 170-205):
a lookup failure (any raised exception, caught at line 204) contributes
nothing; an accepted point (confidence >= 0.7) contributes the ratio
`expected / actual` on each axis whose actual coordinate is nonzero, and
counts once toward `successful_points`.  The `logger.info` call at lines
195-198 can itself raise (NameError, when `x_ratio` is not yet bound), but
it executes after all list appends and the counter increment, and the
exception is caught by the same handler, so it does not affect the
observable result.  Result: (x ratio contributions, y ratio contributions,
successful-point count). -/
def pointRatios (find : String → Except String CalElement) (p : CalPoint) :
    List ℚ × List ℚ × Nat :=
  match find p.description with
  | .error _ => ([], [], 0)
  | .ok e =>
      if (7 : ℚ)/10 ≤ e.confidence then
        ((if e.x ≠ 0 then [(p.x : ℚ) / (e.x : ℚ)] else []),
         (if e.y ≠ 0 then [(p.y : ℚ) / (e.y : ℚ)] else []),
         1)
      else ([], [], 0)

/-- The whole accumulation loop of `calculate_scaling_factors`
(calibration.py lines 166-205): `x_ratios`, `y_ratios`,
`successful_points` after sweeping all points in order. -/
def collectRatios (find : String → Except String CalElement) :
    List CalPoint → List ℚ × List ℚ × Nat
  | [] => ([], [], 0)
  | p :: rest =>
      let c := pointRatios find p
      let r := collectRatios find rest
      (c.1 ++ r.1, c.2.1 ++ r.2.1, c.2.2 + r.2.2)

/-- Arithmetic mean as computed at calibration.py lines 214-215:
`sum(ratios) / len(ratios)`. -/
def meanQ (l : List ℚ) : ℚ := l.sum / (l.length : ℚ)

/-- Possible outcomes of one `calculate_scaling_factors` call.
`navError`: `go_to_home_screen` raised (line 161), propagated.
`insufficient`: the `ValueError` at lines 207-211 (fewer than 2 points).
`zeroDivX` / `zeroDivY`: the uncaught `ZeroDivisionError` from
`sum([])/len([])` at line 214 resp. 215.
`success`: normal return of `(avg_x_ratio, avg_y_ratio)` (line 229). -/
inductive CalibResult
  | navError (msg : String)
  | insufficient (n : Nat)
  | zeroDivX
  | zeroDivY
  | success (sx sy : ℚ)
deriving DecidableEq, Repr

/-- `calculate_scaling_factors(calibration_points, find_element_func)`
(calibration.py lines 140-229), with the navigation call and the injected
lookup modelled as `Except` values and the module state passed explicitly.
The out-of-range warning at lines 218-222 only logs and is omitted: it does
not change the result or the state. -/
def calculate_scaling_factors (nav : Except String Unit)
    (find : String → Except String CalElement) (pts : List CalPoint)
    (s : ScalingState) : CalibResult × ScalingState :=
  match nav with
  | .error m => (.navError m, s)
  | .ok _ =>
      let t := collectRatios find pts
      if t.2.2 < 2 then (.insufficient t.2.2, s)
      else if t.1 = [] then (.zeroDivX, s)
      else if t.2.1 = [] then (.zeroDivY, s)
      else (.success (meanQ t.1) (meanQ t.2.1),
            ⟨meanQ t.1, meanQ t.2.1, true⟩)

/-!
Embedding of `find_element_coordinates_by_description` (vision.py lines
173-321).  The network call (`client.chat.completions.create`) is an opaque
external capability: it is modelled as an `Except String Reply` argument
(`.error` = the call raised).  `json.loads` is likewise external; its
outcome is modelled by the `Reply` tag: `.jsonObj` = the reply parsed as a
JSON object (fields in source order, duplicate keys resolved last-wins as
Python's `json` does), `.text` = `json.loads` raised `JSONDecodeError`.
JSON booleans, null, arrays and nested objects do not occur in any claim
and are not modelled.
-/

/-- A JSON field value: a number (Python int or float, modelled as ℚ) or a
string. -/
inductive JsonValue
  | num (q : ℚ)
  | str (s : String)
deriving DecidableEq, Repr

/-- The model reply as seen after the `json.loads` attempt at vision.py
line 252: either a parsed JSON object or raw text. -/
inductive Reply
  | jsonObj (fields : List (String × JsonValue))
  | text (content : String)
deriving DecidableEq, Repr

/-- The result dict returned by `find_element_coordinates_by_description`
(vision.py line 317): `{"x": int, "y": int, "confidence": float,
"element_description": ...}`.  `element_description` keeps whatever JSON
value was present (the code only inserts the queried description, a
string, when the key is missing). -/
structure VisionResult where
  x : ℤ
  y : ℤ
  confidence : ℚ
  element_description : JsonValue
deriving DecidableEq, Repr

/-- Python dict lookup on the field list (duplicate keys: last wins). -/
def lookupLast (flds : List (String × JsonValue)) (k : String) :
    Option JsonValue :=
  flds.reverse.lookup k

/-- Python `int(float)`: truncation toward zero. -/
def pyTrunc (q : ℚ) : ℤ := if q < 0 then -((-q).floor) else q.floor

/-- Digit run to a natural number. -/
def digitsToNat (ds : List Char) : ℕ :=
  ds.foldl (fun acc c => acc * 10 + (c.toNat - 48)) 0

/-- Leading digit run of a character list, with the remainder. -/
def takeDigits : List Char → List Char × List Char
  | [] => ([], [])
  | c :: t =>
      if c.isDigit then
        let r := takeDigits t
        (c :: r.1, r.2)
      else ([], c :: t)

/-- Characters matched by the regex class `\s` (ASCII range). -/
def isWsChar (c : Char) : Bool :=
  c = ' ' || c = '\t' || c = '\n' || c = '\r' || c = '\x0b' || c = '\x0c'

/-- Skip a (possibly empty) whitespace run: the regex `\s*`. -/
def dropWs : List Char → List Char
  | [] => []
  | c :: t => if isWsChar c then dropWs t else c :: t

/-- Python `int(str)`: optional sign then a nonempty digit run (surrounding
whitespace allowed).  Underscore separators, which no claim exercises, are
not modelled. -/
def parseIntString (s : String) : Option ℤ :=
  let cs := dropWs s.data
  let core : List Char → Option ℤ := fun l =>
    let r := takeDigits l
    if r.1 ≠ [] ∧ dropWs r.2 = [] then some (digitsToNat r.1) else none
  match cs with
  | '-' :: t => (core t).map (fun n => -n)
  | '+' :: t => core t
  | _ => core cs

/-- Python `float(str)`: optional sign, digits, optional fraction part
(exponents, infinities and nan, which no claim exercises, are not
modelled). -/
def parseFloatString (s : String) : Option ℚ :=
  let cs := dropWs s.data
  let core : List Char → Option ℚ := fun l =>
    let ip := takeDigits l
    match ip.2 with
    | '.' :: t =>
        let fp := takeDigits t
        if (ip.1 ≠ [] ∨ fp.1 ≠ []) ∧ dropWs fp.2 = [] then
          some ((digitsToNat ip.1 : ℚ) +
                (digitsToNat fp.1 : ℚ) / ((10 : ℚ) ^ fp.1.length))
        else none
    | rest => if ip.1 ≠ [] ∧ dropWs rest = [] then
          some (digitsToNat ip.1 : ℚ) else none
  match cs with
  | '-' :: t => (core t).map (fun q => -q)
  | '+' :: t => core t
  | _ => core cs

/-- Python `int(value)` applied to a JSON value (vision.py lines 309-310). -/
def pyIntOf : JsonValue → Except String ℤ
  | .num q => .ok (pyTrunc q)
  | .str s =>
      match parseIntString s with
      | some n => .ok n
      | none => .error ("invalid literal for int() with base 10: " ++ s)

/-- Python `float(value)` applied to a JSON value (vision.py line 313). -/
def pyFloatOf : JsonValue → Except String ℚ
  | .num q => .ok q
  | .str s =>
      match parseFloatString s with
      | some q => .ok q
      | none => .error ("could not convert string to float: " ++ s)

/-- The confidence clamp (vision.py lines 314-315):
`if not 0 <= c <= 1: c = max(0, min(c, 1))`. -/
def pyClamp (c : ℚ) : ℚ :=
  if 0 ≤ c ∧ c ≤ 1 then c else max 0 (min c 1)

/-- `str(value)` of a JSON value, used for the message of the
`ValueError(result["error"])` raise at vision.py line 255.  Error values
are strings in every claim; a numeric value is rendered with `toString`. -/
def jsonValueMsg : JsonValue → String
  | .str s => s
  | .num q => toString q

/-- Case-sensitive substring test: Python's `needle in content`
(vision.py lines 267-270). -/
def isPrefixList : List Char → List Char → Bool
  | [], _ => true
  | _ :: _, [] => false
  | a :: as, b :: bs => a == b && isPrefixList as bs

/-- Case-sensitive substring containment over character lists. -/
def containsSub (needle : List Char) : List Char → Bool
  | [] => isPrefixList needle []
  | c :: t => isPrefixList needle (c :: t) || containsSub needle t

/-- Attempt of the regex `L\s*[=:]\s*(\d+)` (re.IGNORECASE) anchored at the
current position, for a lowercase label character `L`: vision.py lines
273 and 278.  The whitespace runs are consumed greedily, which is complete
here because no `\s` character can begin the following atom. -/
def coordAt (label : Char) : List Char → Option ℕ
  | [] => none
  | c :: t =>
      if c.toLower == label then
        match dropWs t with
        | s :: t2 =>
            if s == '=' || s == ':' then
              let r := takeDigits (dropWs t2)
              if r.1.isEmpty then none else some (digitsToNat r.1)
            else none
        | [] => none
      else none

/-- `re.search` for the coordinate pattern: leftmost match wins. -/
def coordSearch (label : Char) : List Char → Option ℕ
  | [] => none
  | c :: t =>
      match coordAt label (c :: t) with
      | some v => some v
      | none => coordSearch label t

/-- Case-insensitive literal-word match (the word given lowercase),
returning the remainder on success. -/
def matchWordCI : List Char → List Char → Option (List Char)
  | [], s => some s
  | _ :: _, [] => none
  | a :: as, b :: bs => if a == b.toLower then matchWordCI as bs else none

/-- The capture group `(0\.\d+|1\.0|1)` of the confidence regex
(vision.py line 284), alternatives tried in order, converted by
`float(...)` (line 288) to an exact rational. -/
def confCapture : List Char → Option ℚ
  | '0' :: '.' :: rest =>
      let r := takeDigits rest
      if r.1.isEmpty then none
      else some ((digitsToNat r.1 : ℚ) / ((10 : ℚ) ^ r.1.length))
  | '1' :: '.' :: '0' :: _ => some 1
  | '1' :: _ => some 1
  | _ => none

/-- Attempt of the regex `confidence\s*(?:[=:]|level\s+is)\s*(0\.\d+|1\.0|1)`
(re.IGNORECASE) anchored at the current position (vision.py lines
283-287).  Greedy whitespace consumption is again complete because `=`,
`:`, letters and digits are not `\s` characters. -/
def confAt (s : List Char) : Option ℚ :=
  match matchWordCI "confidence".data s with
  | none => none
  | some r1 =>
      match dropWs r1 with
      | [] => none
      | c :: t =>
          if c == '=' || c == ':' then confCapture (dropWs t)
          else
            match matchWordCI "level".data (c :: t) with
            | none => none
            | some r2 =>
                match r2 with
                | [] => none
                | w :: t2 =>
                    if isWsChar w then
                      match matchWordCI "is".data (dropWs (w :: t2)) with
                      | none => none
                      | some r3 => confCapture (dropWs r3)
                    else none

/-- `re.search` for the confidence pattern: leftmost match wins. -/
def confSearch : List Char → Option ℚ
  | [] => none
  | c :: t =>
      match confAt (c :: t) with
      | some v => some v
      | none => confSearch t

/-- The text-fallback branch (vision.py lines 260-296): error markers are
checked first, then x, then y, then confidence (default 0.8), and the
result dict is assembled with the queried description as the label. -/
def parseTextBranch (content : String) (desc : String) :
    Except String (List (String × JsonValue)) :=
  if containsSub "Element not found".data content.data then
    .error "Element not found"
  else if containsSub "Ambiguous description".data content.data then
    .error "Ambiguous description"
  else
    match coordSearch 'x' content.data with
    | none => .error "Could not find x coordinate in response"
    | some xv =>
        match coordSearch 'y' content.data with
        | none => .error "Could not find y coordinate in response"
        | some yv =>
            let conf := (confSearch content.data).getD (4/5)
            .ok [("x", .num (xv : ℚ)), ("y", .num (yv : ℚ)),
                 ("confidence", .num conf),
                 ("element_description", .str desc)]

/-- The common validation tail (vision.py lines 298-317): required keys in
order x, y, confidence; `element_description` defaulted to the queried
description; integer coercion of x and y; float coercion and clamp of
confidence. -/
def postValidate (flds : List (String × JsonValue)) (desc : String) :
    Except String VisionResult :=
  match lookupLast flds "x" with
  | none => .error "Invalid response format: missing \x27x\x27 field"
  | some vx =>
  match lookupLast flds "y" with
  | none => .error "Invalid response format: missing \x27y\x27 field"
  | some vy =>
  match lookupLast flds "confidence" with
  | none => .error "Invalid response format: missing \x27confidence\x27 field"
  | some vc =>
  let ed := (lookupLast flds "element_description").getD (.str desc)
  match pyIntOf vx with
  | .error m => .error m
  | .ok xi =>
  match pyIntOf vy with
  | .error m => .error m
  | .ok yi =>
  match pyFloatOf vc with
  | .error m => .error m
  | .ok cf => .ok ⟨xi, yi, pyClamp cf, ed⟩

/-- The parsing flow applied to one reply (vision.py lines 250-317): the
JSON branch fails with the reply's `error` value if that key is present
(the raised `ValueError` is not a `JSONDecodeError`, so it escapes the
inner handler), otherwise both branches funnel into the common
validation. -/
def locateFlow (reply : Reply) (desc : String) : Except String VisionResult :=
  match reply with
  | .jsonObj flds =>
      match lookupLast flds "error" with
      | some v => .error (jsonValueMsg v)
      | none => postValidate flds desc
  | .text content =>
      match parseTextBranch content desc with
      | .error m => .error m
      | .ok flds => postValidate flds desc

/-- `find_element_coordinates_by_description` (vision.py lines 173-321)
after the network call: the outer `except Exception` at lines 319-321
re-raises every failure, including a failed network call, as
`ValueError("Failed to find element: " + str(e))`. -/
def find_element_coordinates_by_description (net : Except String Reply)
    (desc : String) : Except String VisionResult :=
  match net with
  | .error m => .error ("Failed to find element: " ++ m)
  | .ok reply =>
      match locateFlow reply desc with
      | .error m => .error ("Failed to find element: " ++ m)
      | .ok r => .ok r

/-!
Helper lemmas (shared between claim theorems; none of them is itself a
claim theorem, witness or counterexample).
-/

/-- The accumulation loop distributes over list concatenation. -/
theorem collectRatios_append (find : String → Except String CalElement)
    (l1 l2 : List CalPoint) :
    collectRatios find (l1 ++ l2) =
      ((collectRatios find l1).1 ++ (collectRatios find l2).1,
       (collectRatios find l1).2.1 ++ (collectRatios find l2).2.1,
       (collectRatios find l1).2.2 + (collectRatios find l2).2.2) := by
  induction l1 with
  | nil => simp [collectRatios]
  | cons p t ih => simp [collectRatios, ih, List.append_assoc, Nat.add_assoc]

/-- Spec-side definition (from the spec wording of step 4 in §4.2): the
recorded x ratios are `expected_x / perceived_x` over exactly those points
whose lookup succeeded with confidence at least 0.7 and nonzero perceived
x. -/
def specXRatios (find : String → Except String CalElement)
    (pts : List CalPoint) : List ℚ :=
  pts.filterMap fun p =>
    match find p.description with
    | .ok e =>
        if (7 : ℚ)/10 ≤ e.confidence ∧ e.x ≠ 0 then
          some ((p.x : ℚ) / (e.x : ℚ))
        else none
    | .error _ => none

/-- Spec-side definition, the y-axis twin of `specXRatios`. -/
def specYRatios (find : String → Except String CalElement)
    (pts : List CalPoint) : List ℚ :=
  pts.filterMap fun p =>
    match find p.description with
    | .ok e =>
        if (7 : ℚ)/10 ≤ e.confidence ∧ e.y ≠ 0 then
          some ((p.y : ℚ) / (e.y : ℚ))
        else none
    | .error _ => none

/-- The loop's x-ratio list is exactly the spec-side one. -/
theorem collectRatios_x_spec (find : String → Except String CalElement)
    (pts : List CalPoint) :
    (collectRatios find pts).1 = specXRatios find pts := by
  induction pts with
  | nil => rfl
  | cons p t ih =>
      simp only [collectRatios, specXRatios, List.filterMap_cons]
      cases hf : find p.description with
      | error m => simpa [pointRatios, hf, specXRatios] using ih
      | ok e =>
          by_cases hc : (7 : ℚ)/10 ≤ e.confidence
          · by_cases hx : e.x = 0 <;>
              simpa [pointRatios, hf, hc, hx, specXRatios] using ih
          · simpa [pointRatios, hf, hc, specXRatios] using ih

/-- The loop's y-ratio list is exactly the spec-side one. -/
theorem collectRatios_y_spec (find : String → Except String CalElement)
    (pts : List CalPoint) :
    (collectRatios find pts).2.1 = specYRatios find pts := by
  induction pts with
  | nil => rfl
  | cons p t ih =>
      simp only [collectRatios, specYRatios, List.filterMap_cons]
      cases hf : find p.description with
      | error m => simpa [pointRatios, hf, specYRatios] using ih
      | ok e =>
          by_cases hc : (7 : ℚ)/10 ≤ e.confidence
          · by_cases hy : e.y = 0 <;>
              simpa [pointRatios, hf, hc, hy, specYRatios] using ih
          · simpa [pointRatios, hf, hc, specYRatios] using ih

/-- Shape of a successful call: the returned means are installed. -/
theorem calc_success_shape (nav : Except String Unit)
    (find : String → Except String CalElement) (pts : List CalPoint)
    (s : ScalingState) (sx sy : ℚ) (s2 : ScalingState)
    (h : calculate_scaling_factors nav find pts s = (.success sx sy, s2)) :
    sx = meanQ (collectRatios find pts).1 ∧
    sy = meanQ (collectRatios find pts).2.1 ∧ s2 = ⟨sx, sy, true⟩ := by
  cases nav with
  | error m => simp [calculate_scaling_factors] at h
  | ok u =>
      simp only [calculate_scaling_factors] at h
      split_ifs at h
      · simp at h
      · simp at h
      · simp at h
      · simp only [Prod.mk.injEq, CalibResult.success.injEq] at h
        obtain ⟨⟨hsx, hsy⟩, hs2⟩ := h
        exact ⟨hsx.symm, hsy.symm, by rw [← hs2, hsx, hsy]⟩

/-- A call whose outcome is not a success leaves the state unchanged. -/
theorem calc_not_success_state (nav : Except String Unit)
    (find : String → Except String CalElement) (pts : List CalPoint)
    (s : ScalingState)
    (h : ∀ sx sy, (calculate_scaling_factors nav find pts s).1 ≠
        .success sx sy) :
    (calculate_scaling_factors nav find pts s).2 = s := by
  cases nav with
  | error m => rfl
  | ok u =>
      simp only [calculate_scaling_factors] at h ⊢
      split_ifs at h ⊢ with h1 h2 h3
      · rfl
      · rfl
      · rfl
      · exact absurd rfl (h _ _)

/-- The outcome of a call does not depend on the incoming state. -/
theorem calc_result_state_indep (nav : Except String Unit)
    (find : String → Except String CalElement) (pts : List CalPoint)
    (s s' : ScalingState) :
    (calculate_scaling_factors nav find pts s).1 =
      (calculate_scaling_factors nav find pts s').1 := by
  cases nav with
  | error m => rfl
  | ok u =>
      simp only [calculate_scaling_factors]
      split_ifs <;> rfl

/-- The inputs of one `calculate_scaling_factors` call within a process:
the navigation outcome, the injected lookup, and the point list. -/
structure CalibCall where
  nav : Except String Unit
  find : String → Except String CalElement
  pts : List CalPoint

/-- One call against the current module state. -/
def calibStep (c : CalibCall) (s : ScalingState) :
    CalibResult × ScalingState :=
  calculate_scaling_factors c.nav c.find c.pts s

/-- A process lifetime: the module state after a sequence of
`calculate_scaling_factors` calls (the only operation of the module that
writes the state; `get_scaling_factors`, `is_calibrated` and
`apply_scaling` only read it). -/
def runCalib : List CalibCall → ScalingState → ScalingState
  | [], s => s
  | c :: rest, s => runCalib rest (calibStep c s).2

/-- The outcome of a call (state-independent by
`calc_result_state_indep`). -/
def callResult (c : CalibCall) : CalibResult := (calibStep c initState).1

theorem runCalib_append (l1 l2 : List CalibCall) (s : ScalingState) :
    runCalib (l1 ++ l2) s = runCalib l2 (runCalib l1 s) := by
  induction l1 generalizing s with
  | nil => rfl
  | cons c t ih => simp [runCalib, ih]

theorem calibStep_result (c : CalibCall) (s : ScalingState) :
    (calibStep c s).1 = callResult c :=
  calc_result_state_indep c.nav c.find c.pts s initState

theorem runCalib_no_success (tr : List CalibCall) (s : ScalingState)
    (h : ∀ c ∈ tr, ∀ sx sy, callResult c ≠ .success sx sy) :
    runCalib tr s = s := by
  induction tr generalizing s with
  | nil => rfl
  | cons c t ih =>
      have hstep : (calibStep c s).2 = s := by
        refine calc_not_success_state c.nav c.find c.pts s fun sx sy hc => ?_
        exact h c (List.mem_cons_self c t) sx sy ((calibStep_result c s) ▸ hc)
      show runCalib t (calibStep c s).2 = s
      rw [hstep]
      exact ih s fun d hd => h d (List.mem_cons_of_mem c hd)

theorem calibStep_not_success_state (c : CalibCall) (s : ScalingState)
    (h : ∀ sx sy, callResult c ≠ .success sx sy) :
    (calibStep c s).2 = s := by
  refine calc_not_success_state c.nav c.find c.pts s fun sx sy hc => ?_
  exact h sx sy ((calibStep_result c s) ▸ hc)

theorem calibStep_success (c : CalibCall) (s : ScalingState) (sx sy : ℚ)
    (h : callResult c = .success sx sy) :
    calibStep c s = (.success sx sy, ⟨sx, sy, true⟩) := by
  have h1 : (calibStep c s).1 = .success sx sy := by
    rw [calibStep_result]; exact h
  have hpair : calibStep c s = (.success sx sy, (calibStep c s).2) := by
    rw [← h1]
  have h3 := (calc_success_shape c.nav c.find c.pts s sx sy
    (calibStep c s).2 hpair).2.2
  rw [hpair, ← h3]

/-- C1: for a calibration run in which navigation succeeds and lookup
returns a result for each reference point, the loop accepts a point into
the ratio pool exactly when its confidence is at least 0.7, records the
ratio expected/perceived for an axis only when that axis's perceived
coordinate is nonzero, and a successful run returns the arithmetic mean of
each axis's recorded ratios, each axis over its own set; appending a point
whose lookup reports confidence 0.5 leaves the whole call result
unchanged. -/
theorem c1_calibration_ratio_mean
    (find : String → Except String CalElement) (pts : List CalPoint)
    (s : ScalingState)
    (_hall : ∀ p ∈ pts, ∃ e, find p.description = .ok e) :
    (collectRatios find pts).1 = specXRatios find pts ∧
    (collectRatios find pts).2.1 = specYRatios find pts ∧
    (∀ sx sy s2,
        calculate_scaling_factors (.ok ()) find pts s = (.success sx sy, s2) →
        sx = meanQ (specXRatios find pts) ∧
        sy = meanQ (specYRatios find pts)) ∧
    (∀ p e, find p.description = .ok e → e.confidence = 1/2 →
        calculate_scaling_factors (.ok ()) find (pts ++ [p]) s =
          calculate_scaling_factors (.ok ()) find pts s) := by
  refine ⟨collectRatios_x_spec find pts, collectRatios_y_spec find pts,
    ?_, ?_⟩
  · intro sx sy s2 h
    obtain ⟨h1, h2, _⟩ := calc_success_shape _ _ _ _ _ _ _ h
    rw [collectRatios_x_spec] at h1
    rw [collectRatios_y_spec] at h2
    exact ⟨h1, h2⟩
  · intro p e hf hc
    have hpr : pointRatios find p = ([], [], 0) := by
      simp only [pointRatios, hf, hc]
      norm_num
    have hcol : collectRatios find (pts ++ [p]) = collectRatios find pts := by
      rw [collectRatios_append]
      simp [collectRatios, hpr]
    simp only [calculate_scaling_factors, hcol]

/-- C2: on any failing call (navigation raised, or fewer than 2 points
passed the confidence filter) the stored scaling state is exactly what it
was before the call; on success all three fields are replaced together
with the returned pair and the calibrated flag. -/
theorem c2_atomic_state_update (nav : Except String Unit)
    (find : String → Except String CalElement) (pts : List CalPoint)
    (s : ScalingState) :
    (∀ m, (calculate_scaling_factors nav find pts s).1 = .navError m →
        (calculate_scaling_factors nav find pts s).2 = s) ∧
    (∀ n, (calculate_scaling_factors nav find pts s).1 = .insufficient n →
        (calculate_scaling_factors nav find pts s).2 = s) ∧
    (∀ sx sy,
        (calculate_scaling_factors nav find pts s).1 = .success sx sy →
        (calculate_scaling_factors nav find pts s).2 = ⟨sx, sy, true⟩) := by
  refine ⟨?_, ?_, ?_⟩
  · intro m h
    refine calc_not_success_state nav find pts s fun sx sy hs => ?_
    rw [h] at hs
    cases hs
  · intro n h
    refine calc_not_success_state nav find pts s fun sx sy hs => ?_
    rw [h] at hs
    cases hs
  · intro sx sy h
    have hpair : calculate_scaling_factors nav find pts s =
        (.success sx sy, (calculate_scaling_factors nav find pts s).2) := by
      rw [← h]
    exact (calc_success_shape nav find pts s sx sy _ hpair).2.2

/-- C8: when at least 2 points passed the filter and both ratio lists are
nonempty, the call succeeds and installs the two means unconditionally —
the range [0.5, 2.0] never appears as a rejection condition. -/
theorem c8_out_of_range_mean_installed
    (find : String → Except String CalElement) (pts : List CalPoint)
    (s : ScalingState)
    (h2 : 2 ≤ (collectRatios find pts).2.2)
    (hx : (collectRatios find pts).1 ≠ [])
    (hy : (collectRatios find pts).2.1 ≠ []) :
    calculate_scaling_factors (.ok ()) find pts s =
      (.success (meanQ (collectRatios find pts).1)
          (meanQ (collectRatios find pts).2.1),
       ⟨meanQ (collectRatios find pts).1,
        meanQ (collectRatios find pts).2.1, true⟩) := by
  simp only [calculate_scaling_factors]
  rw [if_neg (by omega), if_neg hx, if_neg hy]

/-- C9: with at least 2 accepted points but an empty x ratio list, the
call ends in the uncaught ZeroDivisionError of the x mean (and with a
nonempty x list but empty y list, of the y mean) — a distinct outcome from
the insufficient-data ValueError — and the stored state is unchanged. -/
theorem c9_zero_axis_division
    (find : String → Except String CalElement) (pts : List CalPoint)
    (s : ScalingState)
    (h2 : 2 ≤ (collectRatios find pts).2.2) :
    ((collectRatios find pts).1 = [] →
        calculate_scaling_factors (.ok ()) find pts s = (.zeroDivX, s)) ∧
    ((collectRatios find pts).1 ≠ [] → (collectRatios find pts).2.1 = [] →
        calculate_scaling_factors (.ok ()) find pts s = (.zeroDivY, s)) := by
  constructor
  · intro hx
    simp only [calculate_scaling_factors]
    rw [if_neg (by omega), if_pos hx]
  · intro hx hy
    simp only [calculate_scaling_factors]
    rw [if_neg (by omega), if_neg hx, if_pos hy]

/-- C10: the calibrated flag is monotone within a process: initially
`is_calibrated()` is false and `get_scaling_factors()` is (1.0, 1.0); a
trace without a successful call leaves the state initial; no call resets
the flag once set; and after the last successful call of a trace the state
is exactly the pair that call returned with the flag set. -/
theorem c10_monotone_calibrated :
    (is_calibrated initState = false ∧
        get_scaling_factors initState = (1, 1)) ∧
    (∀ tr : List CalibCall,
        (∀ c ∈ tr, ∀ sx sy, callResult c ≠ .success sx sy) →
        runCalib tr initState = initState) ∧
    (∀ (c : CalibCall) (s : ScalingState), is_calibrated s = true →
        is_calibrated (calibStep c s).2 = true) ∧
    (∀ (pre : List CalibCall) (c : CalibCall) (post : List CalibCall)
        (sx sy : ℚ), callResult c = .success sx sy →
        (∀ d ∈ post, ∀ a b, callResult d ≠ .success a b) →
        runCalib (pre ++ c :: post) initState = ⟨sx, sy, true⟩ ∧
        is_calibrated (runCalib (pre ++ c :: post) initState) = true ∧
        get_scaling_factors (runCalib (pre ++ c :: post) initState) =
          (sx, sy)) := by
  refine ⟨⟨rfl, rfl⟩, fun tr h => runCalib_no_success tr initState h,
    ?_, ?_⟩
  · intro c s hs
    cases hr : callResult c with
    | success sx sy =>
        rw [calibStep_success c s sx sy hr]
        rfl
    | navError m =>
        rw [calibStep_not_success_state c s fun a b h => by simp [hr] at h]
        exact hs
    | insufficient n =>
        rw [calibStep_not_success_state c s fun a b h => by simp [hr] at h]
        exact hs
    | zeroDivX =>
        rw [calibStep_not_success_state c s fun a b h => by simp [hr] at h]
        exact hs
    | zeroDivY =>
        rw [calibStep_not_success_state c s fun a b h => by simp [hr] at h]
        exact hs
  · intro pre c post sx sy hres hpost
    have hfinal : runCalib (pre ++ c :: post) initState = ⟨sx, sy, true⟩ := by
      rw [runCalib_append]
      show runCalib post (calibStep c (runCalib pre initState)).2 =
        ⟨sx, sy, true⟩
      rw [calibStep_success c _ sx sy hres]
      exact runCalib_no_success post _ hpost
    exact ⟨hfinal, by rw [hfinal]; rfl, by rw [hfinal]; rfl⟩

/-- C4: `apply_scaling` returns exactly the rounded biased products; the
1e-5 bias makes an exact .5 tie round up; with the initial identity scale
`apply_scaling(100.5, 200.7) = (101, 201)`, and with scales (1.2, 0.8),
`apply_scaling(100, 200) = (120, 160)`. -/
theorem c4_apply_scaling_rounding :
    (∀ (s : ScalingState) (x y : ℚ),
        apply_scaling s x y =
          (pythonRound (x * s.scaling_x + 1/100000),
           pythonRound (y * s.scaling_y + 1/100000))) ∧
    (∀ n : ℤ, pythonRound ((n : ℚ) + 1/2 + 1/100000) = n + 1) ∧
    apply_scaling initState (201/2) (2007/10) = (101, 201) ∧
    apply_scaling ⟨6/5, 4/5, true⟩ 100 200 = (120, 160) := by
  refine ⟨fun s x y => rfl, ?_, ?_, ?_⟩
  · intro n
    have hfl : ((n : ℚ) + 1/2 + 1/100000).floor = n := by
      rw [ratFloor_eq_floor, add_assoc, Int.floor_int_add]
      norm_num
    have hdiff : (n : ℚ) + 1/2 + 1/100000 - ((n : ℤ) : ℚ) =
        1/2 + 1/100000 := by
      ring
    simp only [pythonRound, hfl, hdiff]
    rw [if_neg (by norm_num), if_pos (by norm_num)]
  · norm_num [apply_scaling, pythonRound, initState, ratFloor_eq_floor]
  · norm_num [apply_scaling, pythonRound, ratFloor_eq_floor]

/-- Concrete lookup used by the calibration witnesses: the two reference
elements are perceived at 90% of their expected position with confidence
0.9, a third with confidence 0.5. -/
def findW : String → Except String CalElement := fun d =>
  if d = "Element 1" then .ok ⟨90, 180, 9/10⟩
  else if d = "Element 2" then .ok ⟨270, 360, 9/10⟩
  else .ok ⟨450, 540, 1/2⟩

/-- Two concrete reference points. -/
def ptsW : List CalPoint :=
  [⟨"Element 1", 100, 200⟩, ⟨"Element 2", 300, 400⟩]

/-- A third concrete reference point (looked up with confidence 0.5). -/
def pW3 : CalPoint := ⟨"Element 3", 500, 600⟩

theorem findW_e1 : findW "Element 1" = .ok ⟨90, 180, 9/10⟩ := rfl

theorem findW_e2 : findW "Element 2" = .ok ⟨270, 360, 9/10⟩ := rfl

theorem findW_e3 : findW "Element 3" = .ok ⟨450, 540, 1/2⟩ := rfl

theorem collectRatios_ptsW :
    collectRatios findW ptsW = ([10/9, 10/9], [10/9, 10/9], 2) := by
  norm_num [collectRatios, pointRatios, ptsW, findW_e1, findW_e2]

/-- Witness for C1: the two-point run with a third confidence-0.5 point
appended returns the same result as the two-point run. -/
theorem c1_witness :
    calculate_scaling_factors (.ok ()) findW (ptsW ++ [pW3]) initState =
      calculate_scaling_factors (.ok ()) findW ptsW initState := by
  refine (c1_calibration_ratio_mean findW ptsW initState ?_).2.2.2 pW3
    ⟨450, 540, 1/2⟩ findW_e3 rfl
  intro p hp
  fin_cases hp
  · exact ⟨_, findW_e1⟩
  · exact ⟨_, findW_e2⟩

/-- One-point list for the C2 witness. -/
def ptsW1 : List CalPoint := [⟨"Element 1", 100, 200⟩]

theorem collectRatios_ptsW1 :
    collectRatios findW ptsW1 = ([10/9], [10/9], 1) := by
  norm_num [collectRatios, pointRatios, ptsW1, findW_e1]

/-- Witness for C2: a run with a single usable point fails with the
insufficient-data error and leaves the state untouched. -/
theorem c2_witness :
    (calculate_scaling_factors (.ok ()) findW ptsW1 initState).2 =
      initState := by
  refine (c2_atomic_state_update (.ok ()) findW ptsW1 initState).2.1 1 ?_
  simp [calculate_scaling_factors, collectRatios_ptsW1]

/-- Concrete lookup whose ratios average to 3, outside [0.5, 2.0]. -/
def findW8 : String → Except String CalElement := fun d =>
  if d = "Alpha" then .ok ⟨100, 100, 9/10⟩ else .ok ⟨200, 200, 9/10⟩

/-- Reference points for the out-of-range-mean witness. -/
def ptsW8 : List CalPoint := [⟨"Alpha", 300, 300⟩, ⟨"Beta", 600, 600⟩]

theorem findW8_a : findW8 "Alpha" = .ok ⟨100, 100, 9/10⟩ := rfl

theorem findW8_b : findW8 "Beta" = .ok ⟨200, 200, 9/10⟩ := rfl

theorem collectRatios_ptsW8 :
    collectRatios findW8 ptsW8 = ([3, 3], [3, 3], 2) := by
  norm_num [collectRatios, pointRatios, ptsW8, findW8_a, findW8_b]

/-- Witness for C8: a mean of 3, outside the sanity range [0.5, 2.0], is
still returned and installed. -/
theorem c8_witness :
    calculate_scaling_factors (.ok ()) findW8 ptsW8 initState =
      (.success 3 3, ⟨3, 3, true⟩) ∧ (2 : ℚ) < 3 := by
  constructor
  · have hm : meanQ [3, 3] = 3 := by
      norm_num [meanQ]
    have h := c8_out_of_range_mean_installed findW8 ptsW8 initState
      (by rw [collectRatios_ptsW8])
      (by rw [collectRatios_ptsW8]; exact List.cons_ne_nil _ _)
      (by rw [collectRatios_ptsW8]; exact List.cons_ne_nil _ _)
    rw [collectRatios_ptsW8] at h
    simp only at h
    rw [hm] at h
    exact h
  · norm_num

/-- Concrete lookup for the zero-axis witness: every perceived x is 0. -/
def findW9 : String → Except String CalElement := fun d =>
  if d = "Alpha" then .ok ⟨0, 180, 9/10⟩ else .ok ⟨0, 360, 9/10⟩

/-- Reference points for the zero-axis witness. -/
def ptsW9 : List CalPoint := [⟨"Alpha", 100, 200⟩, ⟨"Beta", 300, 400⟩]

theorem findW9_a : findW9 "Alpha" = .ok ⟨0, 180, 9/10⟩ := rfl

theorem findW9_b : findW9 "Beta" = .ok ⟨0, 360, 9/10⟩ := rfl

theorem collectRatios_ptsW9 :
    collectRatios findW9 ptsW9 = ([], [10/9, 10/9], 2) := by
  norm_num [collectRatios, pointRatios, ptsW9, findW9_a, findW9_b]

/-- Witness for C9: two accepted points, both with perceived x = 0, end in
the x-axis zero division with the state unchanged. -/
theorem c9_witness :
    calculate_scaling_factors (.ok ()) findW9 ptsW9 initState =
      (.zeroDivX, initState) := by
  refine (c9_zero_axis_division findW9 ptsW9 initState ?_).1 ?_
  · rw [collectRatios_ptsW9]
  · rw [collectRatios_ptsW9]

/-- Witness for C10: a trace of one successful call ends in exactly the
state that call returned, with the calibrated flag set. -/
theorem c10_witness :
    runCalib [⟨.ok (), findW, ptsW⟩] initState = ⟨10/9, 10/9, true⟩ := by
  have hres : callResult ⟨.ok (), findW, ptsW⟩ = .success (10/9) (10/9) := by
    show (calculate_scaling_factors (.ok ()) findW ptsW initState).1 =
      CalibResult.success (10/9) (10/9)
    norm_num [calculate_scaling_factors, collectRatios_ptsW, meanQ]
    rw [if_neg (List.cons_ne_nil _ _), if_neg (List.cons_ne_nil _ _)]
  exact (c10_monotone_calibrated.2.2.2 [] ⟨.ok (), findW, ptsW⟩ []
    (10/9) (10/9) hres (fun d hd => absurd hd (List.not_mem_nil d))).1

/-!
Theorems about the response parser of vision.py.
-/

/-- The code's clamp agrees with the spec formula `max(0, min(c, 1))` for
every confidence value. -/
theorem pyClamp_eq_clamp (c : ℚ) : pyClamp c = max 0 (min c 1) := by
  unfold pyClamp
  split_ifs with h
  · rw [min_eq_left h.2, max_eq_right h.1]
  · rfl

/-- Truncation of a natural-number-valued rational is the identity. -/
theorem pyTrunc_natCast (n : ℕ) : pyTrunc (n : ℚ) = n := by
  unfold pyTrunc
  rw [if_neg (not_lt.mpr (by positivity)), ratFloor_eq_floor,
    Int.floor_natCast]

/-- C3 counterexample: parsing the JSON reply
`{"error": "Element not found"}` raises an error whose message is the
wrapped "Failed to find element: Element not found", which is not the
verbatim upstream message. -/
theorem c3_counterexample :
    find_element_coordinates_by_description
        (.ok (.jsonObj [("error", .str "Element not found")]))
          "login button" =
      .error "Failed to find element: Element not found" ∧
    "Failed to find element: Element not found" ≠ "Element not found" := by
  exact ⟨rfl, by decide⟩

/-- C3 (amended): when the raw reply parses as a JSON object containing an
`error` key with a string value, the lookup fails with an error whose
message is "Failed to find element: " followed by that value verbatim (the
inner ValueError carrying the verbatim message is re-wrapped by the outer
handler). -/
theorem c3_amended_error_wrapped (flds : List (String × JsonValue))
    (desc m : String) (h : lookupLast flds "error" = some (.str m)) :
    find_element_coordinates_by_description (.ok (.jsonObj flds)) desc =
      .error ("Failed to find element: " ++ m) := by
  simp [find_element_coordinates_by_description, locateFlow, h, jsonValueMsg]

/-- Witness for the amended C3 at the concrete reply of the claim. -/
theorem c3_witness :
    find_element_coordinates_by_description
        (.ok (.jsonObj [("error", .str "Element not found")]))
          "search icon" =
      .error ("Failed to find element: " ++ "Element not found") :=
  c3_amended_error_wrapped [("error", .str "Element not found")]
    "search icon" "Element not found" rfl

/-- C7: the locate flow never returns a partial result: every call either
returns a fully validated result, or fails with a single error whose
message is "Failed to find element: " followed by the original cause's
message — for a failed network call the network error message, for an
internal parse/validation failure that failure's message. -/
theorem c7_every_error_wrapped (net : Except String Reply) (desc : String) :
    ((∃ r, find_element_coordinates_by_description net desc = .ok r) ∨
      (∃ m, find_element_coordinates_by_description net desc =
        .error ("Failed to find element: " ++ m))) ∧
    (∀ m, net = .error m →
        find_element_coordinates_by_description net desc =
          .error ("Failed to find element: " ++ m)) ∧
    (∀ reply m, net = .ok reply → locateFlow reply desc = .error m →
        find_element_coordinates_by_description net desc =
          .error ("Failed to find element: " ++ m)) ∧
    (∀ reply r, net = .ok reply → locateFlow reply desc = .ok r →
        find_element_coordinates_by_description net desc = .ok r) := by
  refine ⟨?_, ?_, ?_, ?_⟩
  · cases net with
    | error m => exact .inr ⟨m, rfl⟩
    | ok reply =>
        cases hl : locateFlow reply desc with
        | error m =>
            exact .inr ⟨m, by
              simp [find_element_coordinates_by_description, hl]⟩
        | ok r =>
            exact .inl ⟨r, by
              simp [find_element_coordinates_by_description, hl]⟩
  · intro m h
    subst h
    rfl
  · intro reply m h hl
    subst h
    simp [find_element_coordinates_by_description, hl]
  · intro reply r h hl
    subst h
    simp [find_element_coordinates_by_description, hl]

/-- Witness for C7: a failed network call surfaces as the wrapped error
with the connection message embedded. -/
theorem c7_witness :
    find_element_coordinates_by_description (.error "Connection error")
        "login button" =
      .error ("Failed to find element: " ++ "Connection error") :=
  (c7_every_error_wrapped (.error "Connection error") "login button").2.1
    "Connection error" rfl

/-- C5: the code's clamp is exactly `max(0, min(c, 1))`; whenever the
validation tail succeeds the returned confidence is the clamp of the
upstream confidence value (coerced to float) and x and y are the integer
coercions of the upstream values; and every successful parse, on either
path, factors through that validation tail. -/
theorem c5_confidence_clamped :
    (∀ c : ℚ, pyClamp c = max 0 (min c 1)) ∧
    (∀ (flds : List (String × JsonValue)) (desc : String) (r : VisionResult),
        postValidate flds desc = .ok r →
        ∃ vc c, lookupLast flds "confidence" = some vc ∧
          pyFloatOf vc = .ok c ∧ r.confidence = max 0 (min c 1) ∧
          (∃ vx, lookupLast flds "x" = some vx ∧ pyIntOf vx = .ok r.x) ∧
          (∃ vy, lookupLast flds "y" = some vy ∧ pyIntOf vy = .ok r.y)) ∧
    (∀ (net : Except String Reply) (desc : String) (r : VisionResult),
        find_element_coordinates_by_description net desc = .ok r →
        ∃ flds, postValidate flds desc = .ok r) := by
  refine ⟨pyClamp_eq_clamp, ?_, ?_⟩
  · intro flds desc r h
    simp only [postValidate] at h
    cases hx : lookupLast flds "x" with
    | none => simp only [hx] at h; exact Except.noConfusion h
    | some vx =>
    simp only [hx] at h
    cases hy : lookupLast flds "y" with
    | none => simp only [hy] at h; exact Except.noConfusion h
    | some vy =>
    simp only [hy] at h
    cases hc : lookupLast flds "confidence" with
    | none => simp only [hc] at h; exact Except.noConfusion h
    | some vc =>
    simp only [hc] at h
    cases hix : pyIntOf vx with
    | error m => simp only [hix] at h; exact Except.noConfusion h
    | ok xi =>
    simp only [hix] at h
    cases hiy : pyIntOf vy with
    | error m => simp only [hiy] at h; exact Except.noConfusion h
    | ok yi =>
    simp only [hiy] at h
    cases hfc : pyFloatOf vc with
    | error m => simp only [hfc] at h; exact Except.noConfusion h
    | ok cf =>
    simp only [hfc] at h
    injection h with h2
    subst h2
    exact ⟨vc, cf, rfl, hfc, pyClamp_eq_clamp cf, ⟨vx, rfl, hix⟩,
      ⟨vy, rfl, hiy⟩⟩
  · intro net desc r h
    cases net with
    | error m => simp [find_element_coordinates_by_description] at h
    | ok reply =>
        simp only [find_element_coordinates_by_description] at h
        cases hl : locateFlow reply desc with
        | error m => simp only [hl] at h; exact Except.noConfusion h
        | ok r2 =>
            simp only [hl] at h
            injection h with h2
            subst h2
            cases reply with
            | jsonObj flds =>
                simp only [locateFlow] at hl
                cases he : lookupLast flds "error" with
                | some v => simp only [he] at hl; exact Except.noConfusion hl
                | none =>
                    simp only [he] at hl
                    exact ⟨flds, hl⟩
            | text content =>
                simp only [locateFlow] at hl
                cases hp : parseTextBranch content desc with
                | error m =>
                    simp only [hp] at hl
                    exact Except.noConfusion hl
                | ok flds =>
                    simp only [hp] at hl
                    exact ⟨flds, hl⟩

/-- Concrete JSON fields for the C5 witness: the upstream confidence 2 is
out of range. -/
def fldsW5 : List (String × JsonValue) :=
  [("x", .num 100), ("y", .num 200), ("confidence", .num 2)]

/-- Witness for C5: a JSON reply reporting confidence 2 parses with
confidence clamped to `max 0 (min 2 1) = 1` and integer coordinates. -/
theorem c5_witness :
    ∃ vc c, lookupLast fldsW5 "confidence" = some vc ∧
      pyFloatOf vc = .ok c ∧
      (⟨100, 200, 1, .str "battery icon"⟩ : VisionResult).confidence =
        max 0 (min c 1) ∧
      (∃ vx, lookupLast fldsW5 "x" = some vx ∧
          pyIntOf vx =
            .ok (⟨100, 200, 1, .str "battery icon"⟩ : VisionResult).x) ∧
      (∃ vy, lookupLast fldsW5 "y" = some vy ∧
          pyIntOf vy =
            .ok (⟨100, 200, 1, .str "battery icon"⟩ : VisionResult).y) := by
  refine c5_confidence_clamped.2.1 fldsW5 "battery icon"
    ⟨100, 200, 1, .str "battery icon"⟩ ?_
  have hlx : lookupLast fldsW5 "x" = some (.num 100) := rfl
  have hly : lookupLast fldsW5 "y" = some (.num 200) := rfl
  have hlc : lookupLast fldsW5 "confidence" = some (.num 2) := rfl
  have hled : lookupLast fldsW5 "element_description" = none := rfl
  have htr1 : pyTrunc (100 : ℚ) = 100 := by
    unfold pyTrunc
    rw [if_neg (by norm_num), ratFloor_eq_floor]
    norm_num
  have htr2 : pyTrunc (200 : ℚ) = 200 := by
    unfold pyTrunc
    rw [if_neg (by norm_num), ratFloor_eq_floor]
    norm_num
  have hcl : pyClamp (2 : ℚ) = 1 := by
    unfold pyClamp
    rw [if_neg (by norm_num)]
    norm_num
  simp only [postValidate, hlx, hly, hlc, hled, Option.getD_none,
    pyIntOf, pyFloatOf, htr1, htr2, hcl]

/-- The validation tail applied to the dict the text branch constructs. -/
theorem postValidate_textFields (xv yv : ℕ) (cf : ℚ) (desc : String) :
    postValidate [("x", .num (xv : ℚ)), ("y", .num (yv : ℚ)),
        ("confidence", .num cf), ("element_description", .str desc)] desc =
      .ok ⟨xv, yv, pyClamp cf, .str desc⟩ := by
  have hlx : lookupLast [("x", JsonValue.num (xv : ℚ)),
      ("y", JsonValue.num (yv : ℚ)), ("confidence", JsonValue.num cf),
      ("element_description", JsonValue.str desc)] "x" =
      some (.num (xv : ℚ)) := rfl
  have hly : lookupLast [("x", JsonValue.num (xv : ℚ)),
      ("y", JsonValue.num (yv : ℚ)), ("confidence", JsonValue.num cf),
      ("element_description", JsonValue.str desc)] "y" =
      some (.num (yv : ℚ)) := rfl
  have hlc : lookupLast [("x", JsonValue.num (xv : ℚ)),
      ("y", JsonValue.num (yv : ℚ)), ("confidence", JsonValue.num cf),
      ("element_description", JsonValue.str desc)] "confidence" =
      some (.num cf) := rfl
  have hled : lookupLast [("x", JsonValue.num (xv : ℚ)),
      ("y", JsonValue.num (yv : ℚ)), ("confidence", JsonValue.num cf),
      ("element_description", JsonValue.str desc)] "element_description" =
      some (.str desc) := rfl
  simp only [postValidate, hlx, hly, hlc, hled, Option.getD_some,
    pyIntOf, pyFloatOf, pyTrunc_natCast]

/-- C6: parsing the non-JSON reply "The element is at x: 150 and y: 250 on
the screen." — which contains neither error marker and matches no
confidence pattern — for the query "login button" yields x = 150, y = 250,
the default confidence 0.8, and the queried description as the label. -/
theorem c6_text_fallback_defaults :
    find_element_coordinates_by_description
        (.ok (.text "The element is at x: 150 and y: 250 on the screen."))
        "login button" =
      .ok ⟨150, 250, 4/5, .str "login button"⟩ := by
  have h1 : coordSearch 'x'
      "The element is at x: 150 and y: 250 on the screen.".data =
      some 150 := by decide
  have h2 : coordSearch 'y'
      "The element is at x: 150 and y: 250 on the screen.".data =
      some 250 := by decide
  have h3 : confSearch
      "The element is at x: 150 and y: 250 on the screen.".data =
      none := by decide
  have h4 : containsSub "Element not found".data
      "The element is at x: 150 and y: 250 on the screen.".data =
      false := by decide
  have h5 : containsSub "Ambiguous description".data
      "The element is at x: 150 and y: 250 on the screen.".data =
      false := by decide
  have hb : parseTextBranch
      "The element is at x: 150 and y: 250 on the screen." "login button" =
      .ok [("x", .num ((150 : ℕ) : ℚ)), ("y", .num ((250 : ℕ) : ℚ)),
        ("confidence", .num (4/5)),
        ("element_description", .str "login button")] := by
    simp only [parseTextBranch, h1, h2, h3, h4, h5, Option.getD_none,
      Bool.false_eq_true, if_false]
  simp only [find_element_coordinates_by_description, locateFlow, hb,
    postValidate_textFields]
  norm_num [pyClamp]
